import Mathlib

/-!
Verification development for the PsychoJS core fragment:
`src/js/core/EventManager.js` and the `Window` class (render loop).

The JavaScript is shallowly embedded: mutable object state becomes explicit
state passing, JS objects used as dictionaries become association lists with
JS lookup semantics (later literal entries overwrite earlier ones), numeric
timestamps become rationals, and the side effects of the render loop
(renderer calls, scene-graph mutation, logger calls, flip-callback
invocation) become an explicit event trace.
-/

/-! ### Key tables (EventManager._keycodeMap, _pygletMap, _reversePygletMap) -/

/-- The entries of `EventManager._keycodeMap`, in source (literal) order,
duplicate keys included (the JS object literal keeps the last occurrence). -/
def keycodeMapList : List (Nat × String) :=
  [(49, "Digit1"), (50, "Digit2"), (51, "Digit3"), (52, "Digit4"),
   (53, "Digit5"), (54, "Digit6"), (55, "Digit7"), (56, "Digit8"),
   (57, "Digit9"), (48, "Digit0"),
   (65, "KeyA"), (66, "KeyB"), (67, "KeyC"), (68, "KeyD"), (69, "KeyE"),
   (70, "KeyF"), (71, "KeyG"), (72, "KeyH"), (73, "KeyI"), (74, "KeyJ"),
   (75, "KeyK"), (76, "KeyL"), (77, "KeyM"), (78, "KeyN"), (79, "KeyO"),
   (80, "KeyP"), (81, "KeyQ"), (82, "KeyR"), (83, "KeyS"), (84, "KeyT"),
   (85, "KeyU"), (86, "KeyV"), (87, "KeyW"), (88, "KeyX"), (89, "KeyY"),
   (90, "KeyZ"),
   (188, "Comma"), (190, "Period"), (186, "Semicolon"), (222, "Quote"),
   (219, "BracketLeft"), (221, "BracketRight"), (192, "Backquote"),
   (220, "Backslash"), (189, "Minus"), (187, "Equal"), (144, "NumLock"),
   (96, "Numpad0"), (97, "Numpad1"), (98, "Numpad2"), (99, "Numpad3"),
   (100, "Numpad4"), (101, "Numpad5"), (102, "Numpad6"), (103, "Numpad7"),
   (104, "Numpad8"), (105, "Numpad9"),
   (107, "NumpadAdd"), (194, "NumpadComma"), (194, "NumpadComma"),
   (110, "NumpadDecimal"), (110, "NumpadDecimal"), (111, "NumpadDivide"),
   (13, "NumpadEnter"), (12, "NumpadEqual"), (106, "NumpadMultiply"),
   (109, "NumpadSubtract"),
   (37, "ArrowLeft"), (38, "ArrowUp"), (39, "ArrowRight"), (40, "ArrowDown"),
   (27, "Escape"), (32, "Space")]

/-- JS property read `EventManager._keycodeMap[n]`: the value of the last
literal entry with key `n`, or `undefined` (here `none`). -/
def keycodeMapLookup (n : Nat) : Option String :=
  (keycodeMapList.reverse.find? (fun p => p.1 == n)).map (fun p => p.2)

/-- The entries of `EventManager._pygletMap`, in source (literal) order. -/
def pygletMapList : List (String × String) :=
  [("grave", "Backquote"), ("backslash", "Backslash"),
   ("backspace", "Backspace"), ("bracketleft", "BracketLeft"),
   ("bracketright", "BracketRight"), ("comma", "Comma"),
   ("0", "Digit0"), ("1", "Digit1"), ("2", "Digit2"), ("3", "Digit3"),
   ("4", "Digit4"), ("5", "Digit5"), ("6", "Digit6"), ("7", "Digit7"),
   ("8", "Digit8"), ("9", "Digit9"),
   ("equal", "Equal"),
   ("a", "KeyA"), ("b", "KeyB"), ("c", "KeyC"), ("d", "KeyD"), ("e", "KeyE"),
   ("f", "KeyF"), ("g", "KeyG"), ("h", "KeyH"), ("i", "KeyI"), ("j", "KeyJ"),
   ("k", "KeyK"), ("l", "KeyL"), ("m", "KeyM"), ("n", "KeyN"), ("o", "KeyO"),
   ("p", "KeyP"), ("q", "KeyQ"), ("r", "KeyR"), ("s", "KeyS"), ("t", "KeyT"),
   ("u", "KeyU"), ("v", "KeyV"), ("w", "KeyW"), ("x", "KeyX"), ("y", "KeyY"),
   ("z", "KeyZ"),
   ("minus", "Minus"), ("period", "Period"), ("apostrophe", "Quote"),
   ("semicolon", "Semicolon"), ("slash", "Slash"),
   ("escape", "Escape"), ("loption", "AltLeft"), ("roption", "AltRight"),
   ("capslock", "CapsLock"), ("lcontrol", "ControlLeft"),
   ("rcontrol", "ControlRight"), ("return", "Enter"),
   ("lcommand", "MetaLeft"), ("rcommand", "MetaRight"),
   ("lshift", "ShiftLeft"), ("rshift", "ShiftRight"),
   ("space", "Space"), ("tab", "Tab"),
   ("down", "ArrowDown"), ("left", "ArrowLeft"), ("right", "ArrowRight"),
   ("up", "ArrowUp"),
   ("num_0", "Numpad0"), ("num_1", "Numpad1"), ("num_2", "Numpad2"),
   ("num_3", "Numpad3"), ("num_4", "Numpad4"), ("num_5", "Numpad5"),
   ("num_6", "Numpad6"), ("num_7", "Numpad7"), ("num_8", "Numpad8"),
   ("num_9", "Numpad9"),
   ("num_decimal", "NumpadDecimal"), ("num_enter", "NumpadEnter"),
   ("num_add", "NumpadAdd"), ("num_subtract", "NumpadSubtract"),
   ("num_multiply", "NumpadMultiply"), ("num_divide", "NumpadDivide"),
   ("num_equal", "NumpadEqual"), ("num_numlock", "NumpadNumlock")]

/-- Whether a JS object key is an array-index key ("0", "1", ...): such keys
are enumerated first (in ascending numeric order) by the `for (... in ...)`
loop that builds the reverse map. -/
def isArrayIndexKey (s : String) : Bool :=
  !s.data.isEmpty && s.data.all (fun c => c.isDigit) &&
    (s == "0" || s.data.head? != some (Char.ofNat 48))

/-- The entries of `_pygletMap` in JS `for-in` enumeration order:
array-index keys ("0".."9") first in ascending order (which is also their
insertion order in the literal), then the string keys in insertion order. -/
def pygletEnumList : List (String × String) :=
  pygletMapList.filter (fun p => isArrayIndexKey p.1) ++
    pygletMapList.filter (fun p => !isArrayIndexKey p.1)

/-- JS property read `EventManager._pygletMap[name]`. -/
def pygletMapLookup (name : String) : Option String :=
  (pygletMapList.reverse.find? (fun p => p.1 == name)).map (fun p => p.2)

/-- `EventManager._reversePygletMap`, built in the constructor by
`for (keyName in _pygletMap) _reversePygletMap[_pygletMap[keyName]] = keyName`:
for a given w3c code the key written last in enumeration order wins. -/
def reversePygletMap (code : String) : Option String :=
  (pygletEnumList.reverse.find? (fun p => p.2 == code)).map (fun p => p.1)

/-! ### EventManager._pyglet2w3c -/

/-- `EventManager._pyglet2w3c`: for each entry of the pyglet key list, push
the mapped w3c code when the entry is a key of `_pygletMap`, and the entry
itself otherwise. -/
def pyglet2w3c : List String → List String
  | [] => []
  | k :: rest =>
    (match pygletMapLookup k with
     | none => k
     | some c => c) :: pyglet2w3c rest

/-! ### Key events and EventManager.getKeys -/

/-- A buffered keyboard event, as pushed by the `keydown` listener:
`{ code: e.code, key: e.key, keyCode: e.keyCode,
   timestamp: MonotonicClock.getReferenceTime() / 1000 }`. -/
structure KeyEvent where
  code : String
  key : String
  keyCode : Nat
  timestamp : ℚ

deriving instance DecidableEq for KeyEvent

/-- The `keydown` listener body (`EventManager._addKeyListeners`), given the
monotonic reference time `refTime` at the instant the event fires: appends
the new event, time-stamped with `refTime / 1000`, to the key buffer. -/
def addKeyEvent (refTime : ℚ) (code key : String) (keyCode : Nat)
    (buffer : List KeyEvent) : List KeyEvent :=
  buffer ++ [⟨code, key, keyCode, refTime / 1000⟩]

/-- The index scan of `getKeys` for a non-null key list:
`index = keyList.indexOf(key.code)`, then on failure
`index = keyList.indexOf(_keycodeMap[key.keyCode])`
(`indexOf(undefined)` is `-1`, here `none`). -/
def keyMatchIndex (keyList : List String) (key : KeyEvent) : Option Nat :=
  match keyList.indexOf? key.code with
  | some i => some i
  | none =>
    match keycodeMapLookup key.keyCode with
    | some c => keyList.indexOf? c
    | none => none

/-- The per-event `keyId` computed inside the `getKeys` loop: with a key
list, `_reversePygletMap[keyList[index]]` when an index was found; without
a key list, `_reversePygletMap[key.code]`. `none` plays the role of the JS
`null`/`undefined` that leaves the event in the buffer. -/
def keyMatchId (keyList : Option (List String)) (key : KeyEvent) :
    Option String :=
  match keyList with
  | some kl =>
    (match keyMatchIndex kl key with
     | some i => reversePygletMap (kl.getD i "")
     | none => none)
  | none => reversePygletMap key.code

/-- A value pushed onto the result list of `getKeys`: the bare key name, or
the `[keyName, timestamp]` pair when `timeStamped` is true. -/
inductive RetKey where
  | plain (id : String)
  | stamped (id : String) (t : ℚ)

deriving instance DecidableEq for RetKey

/-- The scanning loop of `getKeys` over the key buffer, with the (already
normalized) key list: returns the result list and the new buffer. -/
def getKeysGo (keyList : Option (List String)) (timeStamped : Bool) :
    List KeyEvent → List RetKey × List KeyEvent
  | [] => ([], [])
  | key :: rest =>
    let r := getKeysGo keyList timeStamped rest
    match keyMatchId keyList key with
    | some keyId =>
      ((if timeStamped then RetKey.stamped keyId key.timestamp
        else RetKey.plain keyId) :: r.1, r.2)
    | none => (r.1, key :: r.2)

/-- `EventManager.getKeys`: normalizes a non-null key list through
`_pyglet2w3c`, scans the buffer, and returns the matched key names (the
first component) together with the new key buffer (the second component,
assigned to `this._keyBuffer` by the source). -/
def getKeys (buffer : List KeyEvent) (keyList : Option (List String))
    (timeStamped : Bool) : List RetKey × List KeyEvent :=
  getKeysGo (keyList.map pyglet2w3c) timeStamped buffer

/-! ### EventManager mouse state and listeners -/

/-- `EventManager._mouseInfo`. The three per-button `Clock` objects are
represented by their `getLastResetTime()` value (`clockLastResetTime`), the
`moveClock` likewise; `pressed` and `times` mirror the three-element arrays. -/
structure MouseInfo where
  pos : ℚ × ℚ
  wheelRel : ℚ × ℚ
  pressed : Fin 3 → Nat
  clockLastResetTime : Fin 3 → ℚ
  times : Fin 3 → ℚ
  moveClockLastResetTime : ℚ

/-- The `pointerdown` listener registered by `addMouseListeners`, with `t`
the value of `_monotonicClock.getTime()` at the instant it runs: sets
`pressed[b] = 1`, stores `t - clocks[b].getLastResetTime()` in `times[b]`,
and updates the position to `(event.offsetX, event.offsetY)`. -/
def onPointerDown (t : ℚ) (b : Fin 3) (offsetX offsetY : ℚ)
    (m : MouseInfo) : MouseInfo :=
  { m with
    pressed := Function.update m.pressed b 1,
    times := Function.update m.times b (t - m.clockLastResetTime b),
    pos := (offsetX, offsetY) }

/-- The `pointerup` listener: identical to `pointerdown` except that it sets
`pressed[b] = 0`. -/
def onPointerUp (t : ℚ) (b : Fin 3) (offsetX offsetY : ℚ)
    (m : MouseInfo) : MouseInfo :=
  { m with
    pressed := Function.update m.pressed b 0,
    times := Function.update m.times b (t - m.clockLastResetTime b),
    pos := (offsetX, offsetY) }

/-- The `pointermove` listener: updates the position and resets the move
clock (its last-reset time becomes the current time `t`). -/
def onPointerMove (t : ℚ) (offsetX offsetY : ℚ) (m : MouseInfo) :
    MouseInfo :=
  { m with pos := (offsetX, offsetY), moveClockLastResetTime := t }

/-- The `wheel` listener: accumulates the deltas into `wheelRel`. -/
def onWheel (deltaX deltaY : ℚ) (m : MouseInfo) : MouseInfo :=
  { m with wheelRel := (m.wheelRel.1 + deltaX, m.wheelRel.2 + deltaY) }

/-! ### EventManager buffer clearing -/

/-- The mutable state of an `EventManager` instance: the key buffer and the
mouse info. -/
structure EMState where
  keyBuffer : List KeyEvent
  mouseInfo : MouseInfo

/-- `EventManager.clearKeys`: `this._keyBuffer = []`. -/
def clearKeys (s : EMState) : EMState :=
  { s with keyBuffer := [] }

/-- `EventManager.clearEvents(attribs)`: the body is exactly
`this.clearKeys()`; the `attribs` argument is never read. -/
def clearEvents (_attribs : Option (List String)) (s : EMState) : EMState :=
  clearKeys s

/-! ### Window: log entries, render events and state -/

/-- An entry of `Window._msgToBeLogged`, as pushed by `logOnFlip`:
`{ msg, level, obj }`. The associated object is modelled by an identifier. -/
structure LogEntry where
  msg : String
  level : Nat
  obj : Option Nat

deriving instance DecidableEq for LogEntry

/-- An observable effect of one pass of `Window.render` (and of the
helpers it calls), in the order the source performs them. Callbacks are
modelled by identifiers, callback arguments by rationals. -/
inductive REvent where
  | renderCall
  | removeChild (id : Nat)
  | updateStim (id : Nat)
  | addChild (id : Nat)
  | logMsg (msg : String) (level : Nat) (time : ℚ) (obj : Option Nat)
  | flipCall (cb : Nat) (args : List ℚ)

deriving instance DecidableEq for REvent

/-- A member of `Window._drawList`: a stimulus identifier together with its
`_needUpdate` flag. -/
structure Stim where
  id : Nat
  needUpdate : Bool

deriving instance DecidableEq for Stim

/-- The `Window` state the render loop reads and writes: `_frameCount`,
`_msgToBeLogged`, the `_flipCallback`/`_flipCallbackArgs` pair (a callback
identifier with its captured arguments, `none` when undefined), the
window's own `_needUpdate` flag, and `_drawList`. -/
structure WindowState where
  frameCount : Nat
  msgToBeLogged : List LogEntry
  flipCallback : Option (Nat × List ℚ)
  needUpdate : Bool
  drawList : List Stim

deriving instance DecidableEq for WindowState

/-- `Window.callOnFlip(flipCallback, ...flipCallbackArgs)`: overwrites the
stored callback and its arguments. -/
def callOnFlip (cb : Nat) (args : List ℚ) (s : WindowState) : WindowState :=
  { s with flipCallback := some (cb, args) }

/-- `Window.logOnFlip({msg, level, obj})`: appends to `_msgToBeLogged`. -/
def logOnFlip (msg : String) (level : Nat) (obj : Option Nat)
    (s : WindowState) : WindowState :=
  { s with msgToBeLogged := s.msgToBeLogged ++ [⟨msg, level, obj⟩] }

/-- The logger calls made by `Window._writeLogOnFlip`, with `logTime` the
single `MonotonicClock.getReferenceTime()` value it captures: one
`logger.log(entry.msg, entry.level, logTime, entry.obj)` per queued entry,
in queue order. -/
def writeLogOnFlipTrace (logTime : ℚ) (msgs : List LogEntry) : List REvent :=
  msgs.map (fun e => REvent.logMsg e.msg e.level logTime e.obj)

/-- `Window._writeLogOnFlip` at reference time `logTime`: performs the
logger calls and then empties `_msgToBeLogged`. -/
def writeLogOnFlip (logTime : ℚ) (s : WindowState) :
    WindowState × List REvent :=
  ({ s with msgToBeLogged := [] }, writeLogOnFlipTrace logTime s.msgToBeLogged)

/-- `Window._updateIfNeeded`: when the window's own `_needUpdate` flag is
set, re-apply the background color (an effect on the external renderer, not
traced here) and clear the flag. -/
def updateIfNeeded (s : WindowState) : WindowState :=
  if s.needUpdate then { s with needUpdate := false } else s

/-- The loop of `Window._refresh` over `_drawList`: each stimulus whose
`_needUpdate` flag is set is removed from the root container, updated
(`stim._updateIfNeeded()`, which clears its flag), and added back; the
returned pair is the draw list afterwards and the scene-graph trace. -/
def refreshStims : List Stim → List Stim × List REvent
  | [] => ([], [])
  | st :: rest =>
    let r := refreshStims rest
    if st.needUpdate then
      (⟨st.id, false⟩ :: r.1,
       REvent.removeChild st.id :: REvent.updateStim st.id ::
         REvent.addChild st.id :: r.2)
    else (st :: r.1, r.2)

/-- `Window._refresh`: `_updateIfNeeded()` on the window itself, then the
remove/update/add pass over `_drawList`. -/
def refresh (s : WindowState) : WindowState × List REvent :=
  let s1 := updateIfNeeded s
  let r := refreshStims s1.drawList
  ({ s1 with drawList := r.1 }, r.2)

/-- The invocation `this._flipCallback(...this._flipCallbackArgs)` guarded
by `typeof this._flipCallback !== 'undefined'`. -/
def flipTrace : Option (Nat × List ℚ) → List REvent
  | none => []
  | some (cb, args) => [REvent.flipCall cb args]

/-- `Window.render()` at monotonic reference time `t`: increments
`_frameCount`, renders the root container (followed by the blocking
`gl.readPixels` synchronization, which has no modelled effect), runs
`_writeLogOnFlip`, invokes the flip callback if one is registered (the
registration is left in place), and finally runs `_refresh`. The returned
trace lists the effects in exactly that order. -/
def render (t : ℚ) (s : WindowState) : WindowState × List REvent :=
  let s1 := { s with frameCount := s.frameCount + 1 }
  let wl := writeLogOnFlip t s1
  let fc := flipTrace s1.flipCallback
  let rf := refresh wl.1
  (rf.1, REvent.renderCall :: (wl.2 ++ fc ++ rf.2))

/-! ### Trace predicates and concrete states used in the statements -/

/-- Whether a trace event is the renderer draw call. -/
def isRenderEvent : REvent → Bool
  | REvent.renderCall => true
  | _ => false

/-- Whether a trace event is a pending-update application on a stimulus. -/
def isUpdateEvent : REvent → Bool
  | REvent.updateStim _ => true
  | _ => false

/-- Whether a trace event is a logger call. -/
def isLogEvent : REvent → Bool
  | REvent.logMsg _ _ _ _ => true
  | _ => false

/-- Whether a trace event is a flip-callback invocation. -/
def isFlipEvent : REvent → Bool
  | REvent.flipCall _ _ => true
  | _ => false

/-- The property that, in a trace, every pending-update application occurs
before every renderer draw call. -/
def updatesBeforeRender (tr : List REvent) : Prop :=
  ∀ i j : Fin tr.length, isUpdateEvent (tr.get i) = true →
    isRenderEvent (tr.get j) = true → (i : Nat) < (j : Nat)

/-- Decidability of `updatesBeforeRender` on a concrete trace. -/
instance (tr : List REvent) : Decidable (updatesBeforeRender tr) := by
  unfold updatesBeforeRender; infer_instance

/-- Whether a buffered event matches a (normalized) key list, by standard
code or by the legacy `keyCode` fallback — i.e. whether the `index >= 0`
branch of the `getKeys` loop is taken. -/
def matchedByFilter (keyList : List String) (key : KeyEvent) : Bool :=
  (keyMatchIndex keyList key).isSome

/-- A window with a registered flip callback (identifier `7`, captured
argument list `[3]`), an empty log queue and an empty draw list. -/
def flipExampleWindow : WindowState :=
  { frameCount := 0, msgToBeLogged := [], flipCallback := some (7, [3]),
    needUpdate := false, drawList := [] }

/-- A window whose draw list holds a single stimulus (identifier `5`) with
its `_needUpdate` flag set. -/
def staleStimWindow : WindowState :=
  { frameCount := 0, msgToBeLogged := [], flipCallback := none,
    needUpdate := false, drawList := [⟨5, true⟩] }

/-- A captured press of the F1 key: `KeyboardEvent.code = "F1"` has no
legacy (pyglet) name and `keyCode` 112 is absent from `_keycodeMap`. -/
def f1Event : KeyEvent :=
  { code := "F1", key := "F1", keyCode := 112, timestamp := 0 }

/-- A mouse state with all clocks and accumulators at zero. -/
def zeroMouseInfo : MouseInfo :=
  { pos := (0, 0), wheelRel := (0, 0), pressed := fun _ => 0,
    clockLastResetTime := fun _ => 0, times := fun _ => 0,
    moveClockLastResetTime := 0 }

/-- A concrete log entry used in witnesses. -/
def helloEntry : LogEntry :=
  { msg := "hello", level := 1, obj := none }


/-! ## Helper lemmas about the render-loop trace -/

/-- `_updateIfNeeded` only touches the window's own `_needUpdate` flag. -/
theorem updateIfNeeded_fields (s : WindowState) :
    (updateIfNeeded s).drawList = s.drawList ∧
      (updateIfNeeded s).msgToBeLogged = s.msgToBeLogged ∧
      (updateIfNeeded s).flipCallback = s.flipCallback := by
  unfold updateIfNeeded
  split <;> exact ⟨rfl, rfl, rfl⟩

/-- The scene-graph trace of the `_refresh` loop: one remove/update/add
triple per flagged stimulus, in draw-list order. -/
theorem refreshStims_trace (l : List Stim) :
    (refreshStims l).2 =
      (l.filter (fun st => st.needUpdate)).flatMap
        (fun st => [REvent.removeChild st.id, REvent.updateStim st.id,
                    REvent.addChild st.id]) := by
  induction l with
  | nil => rfl
  | cons st rest ih =>
    by_cases h : st.needUpdate = true <;>
      simp [refreshStims, List.filter_cons, h, ih]

/-- The draw list after the `_refresh` loop: same stimuli in the same
order, with every `_needUpdate` flag cleared. -/
theorem refreshStims_stims (l : List Stim) :
    (refreshStims l).1 = l.map (fun st => ⟨st.id, false⟩) := by
  induction l with
  | nil => rfl
  | cons st rest ih =>
    obtain ⟨i, u⟩ := st
    cases u <;> simp [refreshStims, ih]

/-- The `_refresh` trace contains no renderer draw call. -/
theorem refreshStims_no_renderCall (l : List Stim) :
    (refreshStims l).2.filter isRenderEvent = [] := by
  induction l with
  | nil => rfl
  | cons st rest ih =>
    by_cases h : st.needUpdate = true <;>
      simp [refreshStims, h, ih, List.filter_cons, isRenderEvent]

/-- The `_refresh` trace contains no flip-callback invocation. -/
theorem refreshStims_no_flip (l : List Stim) :
    (refreshStims l).2.filter isFlipEvent = [] := by
  induction l with
  | nil => rfl
  | cons st rest ih =>
    by_cases h : st.needUpdate = true <;>
      simp [refreshStims, h, ih, List.filter_cons, isFlipEvent]

/-- The `_refresh` trace contains no logger call. -/
theorem refreshStims_no_log (l : List Stim) :
    (refreshStims l).2.filter isLogEvent = [] := by
  induction l with
  | nil => rfl
  | cons st rest ih =>
    by_cases h : st.needUpdate = true <;>
      simp [refreshStims, h, ih, List.filter_cons, isLogEvent]

/-- The `_writeLogOnFlip` trace consists of logger calls only. -/
theorem writeLogOnFlipTrace_filters (t : ℚ) (ms : List LogEntry) :
    (writeLogOnFlipTrace t ms).filter isRenderEvent = [] ∧
      (writeLogOnFlipTrace t ms).filter isFlipEvent = [] ∧
      (writeLogOnFlipTrace t ms).filter isLogEvent =
        writeLogOnFlipTrace t ms := by
  induction ms with
  | nil => exact ⟨rfl, rfl, rfl⟩
  | cons e rest ih =>
    simp only [writeLogOnFlipTrace, List.map_cons, List.filter_cons,
      isRenderEvent, isFlipEvent, isLogEvent] at ih ⊢
    simp [ih.1, ih.2.1, ih.2.2]

/-- The flip-callback line emits flip-callback invocations only. -/
theorem flipTrace_filters (c : Option (Nat × List ℚ)) :
    (flipTrace c).filter isRenderEvent = [] ∧
      (flipTrace c).filter isLogEvent = [] ∧
      (flipTrace c).filter isFlipEvent = flipTrace c := by
  match c with
  | none => exact ⟨rfl, rfl, rfl⟩
  | some (cb, args) =>
    refine ⟨rfl, rfl, ?_⟩
    simp [flipTrace, List.filter_cons, isFlipEvent]

/-- Unfolding of one `render` pass: the resulting state and the trace,
expressed through the component helpers. -/
theorem render_unfold (t : ℚ) (s : WindowState) :
    render t s =
      ({ frameCount := s.frameCount + 1, msgToBeLogged := [],
         flipCallback := s.flipCallback, needUpdate := false,
         drawList := (refreshStims s.drawList).1 },
       REvent.renderCall ::
         (writeLogOnFlipTrace t s.msgToBeLogged ++ flipTrace s.flipCallback
           ++ (refreshStims s.drawList).2)) := by
  unfold render writeLogOnFlip refresh updateIfNeeded
  by_cases h : s.needUpdate = true <;> simp [h]

/-! ## C1 — flip callback: invocation and (non-)clearing -/

/-- C1, counterexample: with callback `7` (arguments `[3]`) registered and
not re-registered during the tick, the registration is still present after
`render`, and a second tick with no new registration invokes the callback
again — refuting "the callback registration is cleared afterwards, so a
subsequent tick with no new registration invokes no flip callback". -/
theorem flipCallback_not_cleared_cex :
    (render 0 flipExampleWindow).1.flipCallback = some (7, [3]) ∧
      REvent.flipCall 7 [3] ∈ (render 0 (render 0 flipExampleWindow).1).2 := by
  exact ⟨by decide, by decide⟩

/-- C1, amended: in every tick in which a flip callback is registered, the
callback is invoked exactly once with its captured arguments, but the
registration is NOT cleared: it survives the tick unchanged (so the next
tick invokes it again unless it is overwritten). -/
theorem render_flipCallback_invoked_each_tick (t : ℚ) (s : WindowState)
    (cb : Nat) (args : List ℚ) (h : s.flipCallback = some (cb, args)) :
    (render t s).2.filter isFlipEvent = [REvent.flipCall cb args] ∧
      (render t s).1.flipCallback = some (cb, args) := by
  rw [render_unfold]
  constructor
  · simp only [List.filter_cons, List.filter_append, isFlipEvent,
      (writeLogOnFlipTrace_filters t s.msgToBeLogged).2.1,
      (flipTrace_filters s.flipCallback).2.2,
      refreshStims_no_flip s.drawList, h, flipTrace]
    simp [isFlipEvent, List.filter_cons]
  · exact h

/-- C1, witness for the amended theorem at a concrete window. -/
theorem render_flipCallback_invoked_each_tick_witness :
    flipExampleWindow.flipCallback = some (7, [3]) ∧
      ((render 0 flipExampleWindow).2.filter isFlipEvent =
          [REvent.flipCall 7 [3]] ∧
        (render 0 flipExampleWindow).1.flipCallback = some (7, [3])) :=
  ⟨rfl, render_flipCallback_invoked_each_tick 0 flipExampleWindow 7 [3] rfl⟩

/-! ## C2 — where in the tick the pending updates are applied -/

/-- C2, counterexample: for a window whose draw list holds one stimulus
with `_needUpdate` set, the tick's trace is the renderer draw call first,
followed by the detach/update/reattach triple — so it is false that every
flagged drawable has its pending update applied before the render call of
that same tick (the renderer draws the element stale). -/
theorem refresh_after_renderCall_cex :
    (render 0 staleStimWindow).2 =
        [REvent.renderCall, REvent.removeChild 5, REvent.updateStim 5,
         REvent.addChild 5] ∧
      ¬ updatesBeforeRender (render 0 staleStimWindow).2 := by
  exact ⟨by decide, by decide⟩

/-- C2, amended: within every tick, each drawable with `_needUpdate` set is
detached, updated and reattached — but after the single render call of that
tick (which is the first event of the trace), preparing the scene for the
next tick; the triples appear once per flagged drawable in draw-list order,
and the draw list keeps its order with all flags cleared. -/
theorem render_trace_structure (t : ℚ) (s : WindowState) :
    (render t s).2 =
        REvent.renderCall ::
          (writeLogOnFlipTrace t s.msgToBeLogged ++ flipTrace s.flipCallback
            ++ (refreshStims s.drawList).2) ∧
      (refreshStims s.drawList).2 =
        (s.drawList.filter (fun st => st.needUpdate)).flatMap
          (fun st => [REvent.removeChild st.id, REvent.updateStim st.id,
                      REvent.addChild st.id]) ∧
      (render t s).2.filter isRenderEvent = [REvent.renderCall] ∧
      (render t s).1.drawList = s.drawList.map (fun st => ⟨st.id, false⟩) := by
  refine ⟨by rw [render_unfold], refreshStims_trace s.drawList, ?_, ?_⟩
  · rw [render_unfold]
    simp only [List.filter_cons, List.filter_append,
      (writeLogOnFlipTrace_filters t s.msgToBeLogged).1,
      (flipTrace_filters s.flipCallback).1,
      refreshStims_no_renderCall s.drawList]
    simp [isRenderEvent]
  · rw [render_unfold]
    exact refreshStims_stims s.drawList

/-! ## C7 — log flush: FIFO, one shared timestamp, queue emptied -/

/-- C7: in every tick at flip-instant reference time `t`, the logger calls
are exactly one per queued entry, in queue (FIFO) order, all carrying the
same timestamp `t`, and the log queue is empty afterwards (so no entry can
be flushed twice). -/
theorem render_log_flush_fifo_single_timestamp (t : ℚ) (s : WindowState) :
    (render t s).2.filter isLogEvent =
        s.msgToBeLogged.map (fun e => REvent.logMsg e.msg e.level t e.obj) ∧
      (render t s).1.msgToBeLogged = [] := by
  rw [render_unfold]
  refine ⟨?_, rfl⟩
  simp only [List.filter_cons, List.filter_append,
    (writeLogOnFlipTrace_filters t s.msgToBeLogged).2.2,
    (flipTrace_filters s.flipCallback).2.1,
    refreshStims_no_log s.drawList]
  simp [isLogEvent, writeLogOnFlipTrace]

/-! ## Helper lemmas about the getKeys scan -/

/-- The result list of the `getKeys` scan: one entry per buffered event
whose `keyId` lookup succeeds, in buffer order. -/
theorem getKeysGo_fst (kl : Option (List String)) (ts : Bool)
    (buf : List KeyEvent) :
    (getKeysGo kl ts buf).1 =
      buf.filterMap (fun k => (keyMatchId kl k).map
        (fun id => if ts then RetKey.stamped id k.timestamp
                   else RetKey.plain id)) := by
  induction buf with
  | nil => rfl
  | cons k rest ih =>
    cases h : keyMatchId kl k <;>
      simp [getKeysGo, h, ih, List.filterMap_cons]

/-- The new buffer produced by the `getKeys` scan: exactly the events whose
`keyId` lookup fails, in their original relative order. -/
theorem getKeysGo_snd (kl : Option (List String)) (ts : Bool)
    (buf : List KeyEvent) :
    (getKeysGo kl ts buf).2 =
      buf.filter (fun k => (keyMatchId kl k).isNone) := by
  induction buf with
  | nil => rfl
  | cons k rest ih =>
    cases h : keyMatchId kl k <;>
      simp [getKeysGo, h, ih, List.filter_cons]

/-! ## C3 — filtered getKeys: buffer afterwards and results -/

/-- C3, counterexample: the captured F1 event matches the filter `["F1"]`
by standard code (its index in the normalized key list is found), yet
`getKeys` returns no result for it and keeps it in the buffer, because the
matched filter entry has no legacy (pyglet) name — refuting "every event
that matched the filter is removed from the buffer and contributes its
legacy name to the result". -/
theorem getKeys_matched_without_legacy_kept_cex :
    matchedByFilter (pyglet2w3c ["F1"]) f1Event = true ∧
      getKeys [f1Event] (some ["F1"]) false = ([], [f1Event]) := by
  exact ⟨by decide, by decide⟩

/-- C3, amended: after `getKeys` with a filter, the buffer contains exactly
the events whose match produced no legacy key name — the events that did
not match the filter (by standard code or legacy-numeric fallback) together
with the matched events whose matched filter entry has no legacy name — in
their original relative order; the result lists, in buffer order, the
legacy name of the matched filter entry for each remaining (matched) event,
time-stamped when requested. -/
theorem getKeys_filter_characterization (buf : List KeyEvent)
    (kl : List String) (ts : Bool) :
    (getKeys buf (some kl) ts).2 =
        buf.filter (fun k => (keyMatchId (some (pyglet2w3c kl)) k).isNone) ∧
      (getKeys buf (some kl) ts).1 =
        buf.filterMap (fun k => (keyMatchId (some (pyglet2w3c kl)) k).map
          (fun id => if ts then RetKey.stamped id k.timestamp
                     else RetKey.plain id)) := by
  exact ⟨getKeysGo_snd (some (pyglet2w3c kl)) ts buf,
    getKeysGo_fst (some (pyglet2w3c kl)) ts buf⟩

/-! ## C4 — the no-filter drain is idempotent -/

/-- C4: after one no-filter `getKeys`, a second no-filter call (with no
captures in between) returns an empty result: every event the first call
kept is an event whose reverse lookup fails, and it fails again on the
second scan. -/
theorem getKeys_drain_idempotent (buf : List KeyEvent) :
    (getKeys (getKeys buf none false).2 none false).1 = [] := by
  unfold getKeys
  rw [getKeysGo_fst, getKeysGo_snd]
  rw [List.filterMap_eq_nil_iff]
  intro k hk
  rw [List.mem_filter] at hk
  rw [Option.isNone_iff_eq_none] at hk
  rw [hk.2]
  rfl

/-! ## C6 — _pyglet2w3c is an order-preserving per-element translation -/

/-- C6: `_pyglet2w3c` returns one output per input in the same order — the
`_pygletMap` entry when the input is a key of the table, the input itself
otherwise — and, being a total function, never fails. -/
theorem pyglet2w3c_characterization (l : List String) :
    (pyglet2w3c l).length = l.length ∧
      pyglet2w3c l = l.map (fun n => (pygletMapLookup n).getD n) := by
  have h2 : pyglet2w3c l = l.map (fun n => (pygletMapLookup n).getD n) := by
    induction l with
    | nil => rfl
    | cons k rest ih =>
      cases h : pygletMapLookup k <;> simp [pyglet2w3c, h, ih]
  exact ⟨by rw [h2, List.length_map], h2⟩

/-! ## C10 — clearEvents ignores its argument and only clears keys -/

/-- C10: for every argument value, `clearEvents(attribs)` coincides with
`clearKeys`: the key buffer becomes empty and the mouse state (position,
wheel accumulation, button flags, clocks and times) is untouched. -/
theorem clearEvents_ignores_arg_clears_only_keys
    (attribs : Option (List String)) (s : EMState) :
    clearEvents attribs s = clearKeys s ∧
      (clearEvents attribs s).keyBuffer = [] ∧
      (clearEvents attribs s).mouseInfo = s.mouseInfo :=
  ⟨rfl, rfl, rfl⟩

/-! ## C8 — button down/up share one per-button reset reference -/

/-- C8: after `pointerdown` on button `b` at time `t1` and `pointerup` on
`b` at time `t2` with no intervening reset of `b`'s clock, both transitions
store `time - clocks[b].getLastResetTime()` with the same reset reference,
and neither transition changes that reference. -/
theorem mouse_button_elapsed_shared_reference (m : MouseInfo) (b : Fin 3)
    (t1 t2 x1 y1 x2 y2 : ℚ) (_h : t1 < t2) :
    (onPointerDown t1 b x1 y1 m).times b = t1 - m.clockLastResetTime b ∧
      (onPointerDown t1 b x1 y1 m).clockLastResetTime b =
        m.clockLastResetTime b ∧
      (onPointerUp t2 b x2 y2 (onPointerDown t1 b x1 y1 m)).times b =
        t2 - m.clockLastResetTime b ∧
      (onPointerUp t2 b x2 y2 (onPointerDown t1 b x1 y1 m)).clockLastResetTime
          b = m.clockLastResetTime b := by
  refine ⟨?_, rfl, ?_, rfl⟩ <;>
    simp [onPointerDown, onPointerUp, Function.update_same]

/-- C8, witness at a concrete mouse state with `t1 = 1`, `t2 = 2`. -/
theorem mouse_button_elapsed_shared_reference_witness :
    (1 : ℚ) < 2 ∧
      ((onPointerDown 1 0 0 0 zeroMouseInfo).times 0 =
          1 - zeroMouseInfo.clockLastResetTime 0 ∧
        (onPointerDown 1 0 0 0 zeroMouseInfo).clockLastResetTime 0 =
          zeroMouseInfo.clockLastResetTime 0 ∧
        (onPointerUp 2 0 0 0 (onPointerDown 1 0 0 0 zeroMouseInfo)).times 0 =
          2 - zeroMouseInfo.clockLastResetTime 0 ∧
        (onPointerUp 2 0 0 0
            (onPointerDown 1 0 0 0 zeroMouseInfo)).clockLastResetTime 0 =
          zeroMouseInfo.clockLastResetTime 0) :=
  ⟨by norm_num,
    mouse_button_elapsed_shared_reference zeroMouseInfo 0 1 2 0 0 0 0
      (by norm_num)⟩

/-! ## C9 — key timestamps are in seconds, log timestamps in milliseconds -/

/-- C9: at one and the same monotonic reference time `t`, the `keydown`
listener stores `t / 1000` on the captured key event while `_writeLogOnFlip`
attaches the undivided `t` to every flushed entry, so the log timestamp is
exactly 1000 times the key timestamp. -/
theorem key_vs_log_timestamp_factor (t : ℚ) (code key : String)
    (keyCode : Nat) (buf : List KeyEvent) (e : LogEntry) (ms : List LogEntry)
    (h : e ∈ ms) :
    ∃ ev : KeyEvent, addKeyEvent t code key keyCode buf = buf ++ [ev] ∧
      REvent.logMsg e.msg e.level t e.obj ∈ writeLogOnFlipTrace t ms ∧
      t = 1000 * ev.timestamp := by
  refine ⟨⟨code, key, keyCode, t / 1000⟩, rfl, ?_, ?_⟩
  · exact List.mem_map_of_mem _ h
  · field_simp

/-- C9, witness at `t = 2` with a one-entry log queue. -/
theorem key_vs_log_timestamp_factor_witness :
    helloEntry ∈ [helloEntry] ∧
      ∃ ev : KeyEvent, addKeyEvent 2 "KeyA" "a" 65 [] = [] ++ [ev] ∧
        REvent.logMsg helloEntry.msg helloEntry.level 2 helloEntry.obj ∈
          writeLogOnFlipTrace 2 [helloEntry] ∧
        (2 : ℚ) = 1000 * ev.timestamp :=
  ⟨List.mem_singleton.mpr rfl,
    key_vs_log_timestamp_factor 2 "KeyA" "a" 65 [] helloEntry [helloEntry]
      (List.mem_singleton.mpr rfl)⟩

/-! ## Helper lemmas about the key tables -/

/-- Membership in the enumeration-ordered table coincides with membership
in the literal-ordered table (the reordering only moves entries). -/
theorem mem_pygletEnum_iff (x : String × String) :
    x ∈ pygletEnumList ↔ x ∈ pygletMapList := by
  unfold pygletEnumList
  constructor
  · intro hmem
    rcases List.mem_append.mp hmem with h | h <;> exact (List.mem_filter.mp h).1
  · intro hm
    by_cases hb : isArrayIndexKey x.1 = true
    · exact List.mem_append.mpr (Or.inl (List.mem_filter.mpr ⟨hm, hb⟩))
    · exact List.mem_append.mpr (Or.inr (List.mem_filter.mpr ⟨hm, by simp [hb]⟩))

/-- The pyglet table binds each legacy name at most once. -/
theorem pygletKeysNodup : (pygletMapList.map Prod.fst).Nodup := by decide

/-- In an association list with pairwise-distinct keys, a key determines
its value. -/
theorem nodup_keys_value_eq :
    ∀ {l : List (String × String)}, (l.map Prod.fst).Nodup →
      ∀ {k v1 v2 : String}, (k, v1) ∈ l → (k, v2) ∈ l → v1 = v2 := by
  intro l
  induction l with
  | nil => intro _ k v1 v2 h1; cases h1
  | cons a tl ih =>
    intro hnd k v1 v2 h1 h2
    rw [List.map_cons, List.nodup_cons] at hnd
    rcases List.mem_cons.mp h1 with e1 | m1 <;>
      rcases List.mem_cons.mp h2 with e2 | m2
    · exact congrArg Prod.snd (e1.trans e2.symm)
    · exfalso
      apply hnd.1
      have ha : a.1 = k := by rw [← e1]
      rw [ha]
      exact List.mem_map_of_mem Prod.fst m2
    · exfalso
      apply hnd.1
      have ha : a.1 = k := by rw [← e2]
      rw [ha]
      exact List.mem_map_of_mem Prod.fst m1
    · exact ih hnd.2 m1 m2

/-! ## C5 — reverse lookup then forward translation round-trips -/

/-- C5: for every standard (w3c) code bound by exactly one legacy name in
`_pygletMap`, looking the code up in `_reversePygletMap` yields a legacy
name which `_pyglet2w3c` translates back to the original code. -/
theorem reversePyglet_roundTrip (code : String)
    (h : (pygletMapList.filter (fun p => p.2 == code)).length = 1) :
    ∃ name, reversePygletMap code = some name ∧
      pyglet2w3c [name] = [code] := by
  obtain ⟨x, hfx⟩ := List.length_eq_one.mp h
  have hxf : x ∈ pygletMapList.filter (fun p => p.2 == code) := by
    rw [hfx]; exact List.mem_singleton.mpr rfl
  obtain ⟨hxmem, hxval⟩ := List.mem_filter.mp hxf
  have hex : ∃ y ∈ pygletEnumList.reverse, y.2 == code :=
    ⟨x, List.mem_reverse.mpr ((mem_pygletEnum_iff x).mpr hxmem), hxval⟩
  have hs : (pygletEnumList.reverse.find? (fun p => p.2 == code)).isSome :=
    List.find?_isSome.mpr hex
  obtain ⟨y, hy⟩ := Option.isSome_iff_exists.mp hs
  have hyval : y.2 = code := by
    have := List.find?_some hy
    exact eq_of_beq this
  have hymem : y ∈ pygletMapList :=
    (mem_pygletEnum_iff y).mp (List.mem_reverse.mp (List.mem_of_find?_eq_some hy))
  have hymem1 : (y.1, code) ∈ pygletMapList := by
    rw [← hyval]
    exact hymem
  have hex2 : ∃ z ∈ pygletMapList.reverse, z.1 == y.1 :=
    ⟨y, List.mem_reverse.mpr hymem, by simp⟩
  have hs2 : (pygletMapList.reverse.find? (fun p => p.1 == y.1)).isSome :=
    List.find?_isSome.mpr hex2
  obtain ⟨z, hz⟩ := Option.isSome_iff_exists.mp hs2
  have hzkey : z.1 = y.1 := by
    have := List.find?_some hz
    exact eq_of_beq this
  have hzmem : z ∈ pygletMapList :=
    List.mem_reverse.mp (List.mem_of_find?_eq_some hz)
  have hzmem1 : (y.1, z.2) ∈ pygletMapList := by
    rw [← hzkey]
    exact hzmem
  have hzval : z.2 = code := nodup_keys_value_eq pygletKeysNodup hzmem1 hymem1
  have hlk : pygletMapLookup y.1 = some code := by
    unfold pygletMapLookup
    rw [hz]
    exact congrArg some hzval
  refine ⟨y.1, ?_, ?_⟩
  · unfold reversePygletMap
    rw [hy]
    rfl
  · show pyglet2w3c [y.1] = [code]
    simp [pyglet2w3c, hlk]

/-- C5, witness at the code "Space", whose only legacy name is "space". -/
theorem reversePyglet_roundTrip_witness :
    (pygletMapList.filter (fun p => p.2 == "Space")).length = 1 ∧
      ∃ name, reversePygletMap "Space" = some name ∧
        pyglet2w3c [name] = ["Space"] :=
  ⟨by decide, reversePyglet_roundTrip "Space" (by decide)⟩
